import Mathlib

/-!
Verification of the mediasoup-go control-plane library (shallow embedding).

The definitions below are translated from the Go source files
`worker.go`, `consumer.go` and `mediasoup/rtp_capabilities.go`
(the latter also carries the PipeTransport implementation).
Stateful methods become explicit state-passing functions; the response of
the out-of-process mediasoup worker is passed in as an oracle argument,
since the worker binary is an external collaborator.  Events emitted on an
object's own emitter and on its observer are returned as explicit lists.
-/

/-- Error taxonomy of the library (spec section 7): TypeError,
InvalidStateError, UnsupportedError, TimeoutError, worker-reported errors
and plain generic errors produced with fmt.Errorf. -/
inductive MError
  | typeError (reason : String)
  | invalidStateError (reason : String)
  | unsupportedError (reason : String)
  | timeoutError
  | workerError (reason : String)
  | genericError (reason : String)
deriving DecidableEq, Repr

/-- Whether an error is an InvalidStateError. -/
def MError.isInvalidState : MError → Bool
  | .invalidStateError _ => true
  | _ => false

/-- Where an event was emitted: on the object's own emitter (`Emit` /
`SafeEmit`) or on its observer emitter. -/
inductive EmitTarget
  | self
  | observer
deriving DecidableEq, Repr

/-- One emitted event: target emitter, event name, and an optional error
payload (used by the worker's `@failure` / `died` events). -/
structure Emitted where
  target : EmitTarget
  event : String
  payload : Option MError := none
deriving DecidableEq, Repr

/-- Event emitted on the object's own emitter. -/
def selfEmit (e : String) : Emitted := { target := .self, event := e }

/-- Event emitted on the object's observer. -/
def obsEmit (e : String) : Emitted := { target := .observer, event := e }

/-- Number of occurrences of an event in an emission trace. -/
def countEvent (l : List Emitted) (e : Emitted) : Nat :=
  (l.filter (fun x => decide (x = e))).length

/-- Modelled from the spec: the control Channel (`channel.go` is not under
`src/`, only its callers are).  Spec section 4.2 ("Close: cancels all pending
requests with InvalidStateError") and section 7 ("InvalidStateError —
operation on a closed object or a dead channel"): a request issued on a
closed channel fails with InvalidStateError; on an open channel the
worker's response — supplied by the caller as an oracle — is returned. -/
structure Channel where
  closed : Bool
deriving DecidableEq, Repr

/-- Modelled from the spec: issue a request whose only interesting outcome
is its error (`resp` is the worker's response). -/
def Channel.request (ch : Channel) (resp : Option MError) : Option MError :=
  if ch.closed then some (MError.invalidStateError "Channel closed") else resp

/-- Modelled from the spec: issue a request whose response carries data
that the caller unmarshals. -/
def Channel.requestData {α : Type} (ch : Channel) (resp : Except MError α) :
    Except MError α :=
  if ch.closed then .error (MError.invalidStateError "Channel closed") else resp

/-- ConsumerScore (consumer.go lines 87-103).  `producerScores` is a Go
slice; `none` models the nil slice (the zero value) and `some []` an
allocated empty slice — reflect.DeepEqual distinguishes the two. -/
structure ConsumerScore where
  score : Nat
  producerScore : Nat
  producerScores : Option (List Nat)
deriving DecidableEq, Repr

/-- ConsumerLayers (consumer.go lines 105-115). -/
structure ConsumerLayers where
  spatialLayer : Nat
  temporalLayer : Nat
deriving DecidableEq, Repr

/-- Mutable state of a Consumer (consumer.go lines 168-185).  The two
listening flags model the subscriptions registered on the channel and the
payload channel keyed by the consumer id. -/
structure ConsumerState where
  closed : Bool
  paused : Bool
  producerPaused : Bool
  priority : Nat
  score : ConsumerScore
  preferredLayers : ConsumerLayers
  channelListening : Bool
  payloadListening : Bool
deriving DecidableEq, Repr

/-- The parameters of newConsumer that matter to its state
(consumer.go lines 131-147). -/
structure ConsumerParams where
  paused : Bool
  producerPaused : Bool
  score : ConsumerScore
  preferredLayers : ConsumerLayers
deriving DecidableEq, Repr

/-- The reflect.DeepEqual test against the zero ConsumerScore performed by
newConsumer (consumer.go line 196): every field at its zero value, the
slice being nil (not an allocated empty slice). -/
def deepEqualZeroScore (s : ConsumerScore) : Bool :=
  s.score == 0 && s.producerScore == 0 && s.producerScores == none

/-- The Go zero value of ConsumerScore. -/
def goZeroConsumerScore : ConsumerScore := { score := 0, producerScore := 0, producerScores := none }

/-- The default score installed by newConsumer (consumer.go lines 197-201):
Score 10, ProducerScore 10, ProducerScores an allocated empty slice. -/
def defaultConsumerScore : ConsumerScore := { score := 10, producerScore := 10, producerScores := some [] }

/-- newConsumer (consumer.go lines 187-222): defaults the score when the
supplied one deep-equals the zero value, starts open, registers the
channel and payload-channel listeners. -/
def newConsumer (p : ConsumerParams) : ConsumerState :=
  let score := if deepEqualZeroScore p.score then defaultConsumerScore else p.score
  { closed := false
    paused := p.paused
    producerPaused := p.producerPaused
    priority := 0
    score := score
    preferredLayers := p.preferredLayers
    channelListening := true
    payloadListening := true }

/-- Consumer.Close (consumer.go lines 309-325): a compare-and-swap on the
closed bit; on the winning call it removes both listener registrations,
sends a `consumer.close` request (response ignored), emits `@close` and the
observer `close`.  Returns (state, emitted events, requests sent). -/
def ConsumerState.close (s : ConsumerState) :
    ConsumerState × List Emitted × List String :=
  if s.closed then (s, [], [])
  else
    ({ s with closed := true, channelListening := false, payloadListening := false },
     [selfEmit "@close", obsEmit "close"], ["consumer.close"])

/-- Consumer.transportClosed (consumer.go lines 328-341): same CAS; removes
both listener registrations, emits `transportclose` and the observer
`close`; sends no request. -/
def ConsumerState.transportClosed (s : ConsumerState) :
    ConsumerState × List Emitted :=
  if s.closed then (s, [])
  else
    ({ s with closed := true, channelListening := false, payloadListening := false },
     [selfEmit "transportclose", obsEmit "close"])

/-- The `producerclose` branch of Consumer.handleWorkerNotifications
(consumer.go lines 470-479): CAS on the closed bit; on the winning call it
removes the channel listener registration (only that one), emits
`@producerclose`, `producerclose` and the observer `close`. -/
def ConsumerState.onProducerClose (s : ConsumerState) :
    ConsumerState × List Emitted :=
  if s.closed then (s, [])
  else
    ({ s with closed := true, channelListening := false },
     [selfEmit "@producerclose", selfEmit "producerclose", obsEmit "close"])

/-- Result of a consumer operation that can fail: resulting state, events
emitted, error returned to the caller. -/
structure OpOut where
  state : ConsumerState
  emitted : List Emitted
  err : Option MError
deriving DecidableEq, Repr

/-- Consumer.Pause (consumer.go lines 363-385): records the effective
paused value, sends `consumer.pause`, returns the error on failure; on
success sets `paused` and emits the observer `pause` only when the
effective value was previously false.  No closed-flag check is performed. -/
def ConsumerState.pause (s : ConsumerState) (ch : Channel) (resp : Option MError) : OpOut :=
  let wasPaused := s.paused || s.producerPaused
  match ch.request resp with
  | some e => { state := s, emitted := [], err := some e }
  | none =>
    { state := { s with paused := true }
      emitted := if !wasPaused then [obsEmit "pause"] else []
      err := none }

/-- Consumer.Resume (consumer.go lines 388-410): records the effective
paused value, sends `consumer.resume`; on success clears `paused` and emits
the observer `resume` only when the effective value was previously true and
the producer is not paused.  No closed-flag check is performed. -/
def ConsumerState.resume (s : ConsumerState) (ch : Channel) (resp : Option MError) : OpOut :=
  let wasPaused := s.paused || s.producerPaused
  match ch.request resp with
  | some e => { state := s, emitted := [], err := some e }
  | none =>
    { state := { s with paused := false }
      emitted := if wasPaused && !s.producerPaused then [obsEmit "resume"] else []
      err := none }

/-- The `producerpause` branch of Consumer.handleWorkerNotifications
(consumer.go lines 481-498). -/
def ConsumerState.onProducerPause (s : ConsumerState) :
    ConsumerState × List Emitted :=
  if s.producerPaused then (s, [])
  else
    let wasPaused := s.paused || s.producerPaused
    ({ s with producerPaused := true },
     selfEmit "producerpause" :: (if !wasPaused then [obsEmit "pause"] else []))

/-- The `producerresume` branch of Consumer.handleWorkerNotifications
(consumer.go lines 500-517). -/
def ConsumerState.onProducerResume (s : ConsumerState) :
    ConsumerState × List Emitted :=
  if !s.producerPaused then (s, [])
  else
    let wasPaused := s.paused || s.producerPaused
    ({ s with producerPaused := false },
     selfEmit "producerresume" :: (if wasPaused && !s.paused then [obsEmit "resume"] else []))

/-- Consumer.Dump (consumer.go lines 344-350): forwards `consumer.dump` on
the channel; the result is built from the response alone.  No closed-flag
check is performed. -/
def ConsumerState.dump (s : ConsumerState) (ch : Channel) (resp : Option MError) : Option MError :=
  ch.request resp

/-- Consumer.GetStats (consumer.go lines 353-360): error is the
unmarshalling outcome of the channel response.  No closed-flag check. -/
def ConsumerState.getStats (s : ConsumerState) (ch : Channel)
    (resp : Except MError (List Nat)) : Option MError :=
  match ch.requestData resp with
  | .error e => some e
  | .ok _ => none

/-- Consumer.SetPreferredLayers (consumer.go lines 413-420): sends the
request and unmarshals the response into the preferred layers.
No closed-flag check. -/
def ConsumerState.setPreferredLayers (s : ConsumerState) (ch : Channel)
    (resp : Except MError ConsumerLayers) : ConsumerState × Option MError :=
  match ch.requestData resp with
  | .error e => (s, some e)
  | .ok layers => ({ s with preferredLayers := layers }, none)

/-- The `consumer.setPriority` request: method name and the priority sent
in its data. -/
structure PriorityReq where
  method : String
  priority : Nat
deriving DecidableEq, Repr

/-- Consumer.SetPriority (consumer.go lines 423-438): sends
`consumer.setPriority` carrying the given priority; on success stores the
priority echoed by the worker.  No closed-flag check. -/
def ConsumerState.setPriority (s : ConsumerState) (ch : Channel)
    (resp : Except MError Nat) (priority : Nat) :
    ConsumerState × PriorityReq × Option MError :=
  let req : PriorityReq := { method := "consumer.setPriority", priority := priority }
  match ch.requestData resp with
  | .error e => (s, req, some e)
  | .ok p => ({ s with priority := p }, req, none)

/-- Consumer.UnsetPriority (consumer.go lines 441-445): delegates to
SetPriority with priority 1. -/
def ConsumerState.unsetPriority (s : ConsumerState) (ch : Channel)
    (resp : Except MError Nat) : ConsumerState × PriorityReq × Option MError :=
  s.setPriority ch resp 1

/-- Consumer.RequestKeyFrame (consumer.go lines 448-454).  No closed-flag
check. -/
def ConsumerState.requestKeyFrame (s : ConsumerState) (ch : Channel)
    (resp : Option MError) : Option MError :=
  ch.request resp

/-- Consumer.EnableTraceEvent (consumer.go lines 459-465).  No closed-flag
check. -/
def ConsumerState.enableTraceEvent (s : ConsumerState) (ch : Channel)
    (resp : Option MError) : Option MError :=
  ch.request resp

/-- The `rtp` branch of the payload-channel listener (consumer.go lines
558-569): returns without emitting when the consumer is closed, otherwise
emits `rtp` with the payload. -/
def ConsumerState.onPayloadRtp (s : ConsumerState) (payload : List Nat) : List Emitted :=
  if s.closed then [] else [selfEmit "rtp"]

/-- Mutable state of a Worker (worker.go lines 235-258).  `child` records
whether the child-process handle is still held; `routers` the ids stored in
the routers map. -/
structure WorkerState where
  closed : Bool
  channel : Channel
  payloadChannelClosed : Bool
  child : Bool
  spawnDone : Bool
  routers : List String
deriving DecidableEq, Repr

/-- The Worker state right after NewWorker returns (worker.go lines
354-363): open, both channels open, child held, spawn not yet observed,
no routers. -/
def initialWorker : WorkerState :=
  { closed := false
    channel := { closed := false }
    payloadChannelClosed := false
    child := true
    spawnDone := false
    routers := [] }

/-- Worker.Close (worker.go lines 438-469): guarded by the closed flag;
sets it, drops and SIGTERMs the child, closes both channels, cascades
workerClosed to every router and clears the map, emits the observer
`close`.  Returns (state, emitted events, router ids cascaded). -/
def WorkerState.close (w : WorkerState) :
    WorkerState × List Emitted × List String :=
  if w.closed then (w, [], [])
  else
    ({ w with closed := true
              child := false
              channel := { closed := true }
              payloadChannelClosed := true
              routers := [] },
     [obsEmit "close"], w.routers)

/-- Worker.Dump (worker.go lines 472-478): forwards `worker.dump`; the
result is the channel response.  No closed-flag check in the method
itself. -/
def WorkerState.dump (w : WorkerState) (resp : Option MError) : Option MError :=
  w.channel.request resp

/-- Worker.GetResourceUsage (worker.go lines 483-490). -/
def WorkerState.getResourceUsage (w : WorkerState) (resp : Option MError) : Option MError :=
  w.channel.request resp

/-- Worker.UpdateSettings (worker.go lines 493-497). -/
def WorkerState.updateSettings (w : WorkerState) (resp : Option MError) : Option MError :=
  w.channel.request resp

/-- Worker.CreateRouter (worker.go lines 500-531): sends
`worker.createRouter` with a fresh router id; on success stores the router
and emits the observer `newrouter`.  (Generation of the router RTP
capabilities is orthogonal to the lifecycle and elided.) -/
def WorkerState.createRouter (w : WorkerState) (routerId : String)
    (resp : Option MError) : WorkerState × List Emitted × Option MError :=
  match w.channel.request resp with
  | some e => (w, [], some e)
  | none =>
    ({ w with routers := w.routers ++ [routerId] }, [obsEmit "newrouter"], none)

/-- The spawn-failure error payload computed by Worker.wait (worker.go
lines 402-409): exit code 42 maps to TypeError("wrong settings"), anything
else to a generic spawn-failure error (its pid/code/signal formatting is
abstracted). -/
def spawnFailureErr (exitCode : Nat) : MError :=
  if exitCode = 42 then .typeError "wrong settings"
  else .workerError "worker process failed unexpectedly"

/-- The error payload of the `died` event (worker.go line 412), with the
pid/code/signal formatting abstracted. -/
def diedErr : MError := .workerError "worker process died unexpectedly"

/-- Worker.wait (worker.go lines 378-414): drops the child handle, calls
Close (which cascades workerClosed to the routers and emits the observer
`close` if not already closed), then — if the `running` notification had
not been observed — marks spawnDone and emits `@failure` with the error
chosen by the exit code, otherwise emits `died`.
Returns (state, emitted events, router ids cascaded). -/
def WorkerState.wait (w : WorkerState) (exitCode : Nat) :
    WorkerState × List Emitted × List String :=
  let w1 : WorkerState := { w with child := false }
  let c := w1.close
  if c.1.spawnDone = false then
    ({ c.1 with spawnDone := true },
     c.2.1 ++ [{ target := .self, event := "@failure", payload := some (spawnFailureErr exitCode) }],
     c.2.2)
  else
    (c.1,
     c.2.1 ++ [{ target := .self, event := "died", payload := some diedErr }],
     c.2.2)

/-- The background tasks NewWorker leaves watching the child process
(worker.go lines 332-352 and line 373): a goroutine logging stderr lines
until EOF, a goroutine logging stdout lines until EOF, and
`go worker.child.Wait()`, which merely reaps the subprocess. -/
inductive SpawnedTask
  | stderrReader
  | stdoutReader
  | childWaitReaper
deriving DecidableEq, Repr

/-- The tasks spawned by NewWorker, in source order. -/
def newWorkerSpawnedTasks : List SpawnedTask :=
  [.stderrReader, .stdoutReader, .childWaitReaper]

/-- Effect of each spawned task on the Worker when the child process
exits.  The stderr/stdout readers hit EOF, log, and stop (worker.go lines
334-341 and 345-352); `exec.Cmd.Wait` (line 373) reaps the process and
returns — none of them touches the Worker state or emits an event.
Worker.wait, which would react to the exit, is not among these tasks. -/
def SpawnedTask.onChildExit : SpawnedTask → WorkerState → WorkerState × List Emitted
  | .stderrReader, w => (w, [])
  | .stdoutReader, w => (w, [])
  | .childWaitReaper, w => (w, [])

/-- Combined effect on the Worker of the child process exiting, as wired
by NewWorker: run every spawned task's exit reaction. -/
def processExitEffect (w : WorkerState) : WorkerState × List Emitted :=
  newWorkerSpawnedTasks.foldl
    (fun acc t =>
      let r := t.onChildExit acc.1
      (r.1, acc.2 ++ r.2))
    (w, [])

/-- Operations of the Worker lifecycle. -/
inductive WorkerOp
  | close
  | dump (resp : Option MError)
  | getResourceUsage (resp : Option MError)
  | updateSettings (resp : Option MError)
  | createRouter (routerId : String) (resp : Option MError)

/-- One Worker operation as a step on the state, with its emissions. -/
def WorkerState.step (w : WorkerState) : WorkerOp → WorkerState × List Emitted
  | .close => let r := w.close; (r.1, r.2.1)
  | .dump _ => (w, [])
  | .getResourceUsage _ => (w, [])
  | .updateSettings _ => (w, [])
  | .createRouter id resp => let r := w.createRouter id resp; (r.1, r.2.1)

/-- Run a sequence of Worker operations, concatenating emissions. -/
def WorkerState.run (w : WorkerState) : List WorkerOp → WorkerState × List Emitted
  | [] => (w, [])
  | op :: ops =>
    let r := w.step op
    let r2 := r.1.run ops
    (r2.1, r.2 ++ r2.2)

/-- A Producer as seen through the injected getProducerById callback
(pipe transport source): only its kind and consumable parameters matter to
PipeTransport.Consume, abstracted here. -/
structure ProducerRef where
  kind : String
  consumableEncodingsCount : Nat
deriving DecidableEq, Repr

/-- Mutable state of a PipeTransport together with the base-Transport
fields it relies on (pipe transport source plus the shared base): closed
flag, SCTP state string ("" when SCTP is disabled), owned consumer ids. -/
structure PipeTransportState where
  closed : Bool
  sctpState : String
  consumers : List String
deriving DecidableEq, Repr

/-- Modelled from the spec: the shared base Transport close path
(`transport.go` is not under `src/`; the PipeTransport methods delegate to
`transport.ITransport.Close()` / `routerClosed()`).  Spec sections 3, 4.7
and 8: the closed flag is a monotonic single-shot bit, close is idempotent,
closing cascades transportClosed to every owned consumer and clears the
map, and the observer sees `close` exactly once; the self event
distinguishes the caller-initiated and parent-initiated paths. -/
def transportBaseClose (t : PipeTransportState) (selfEvent : String) :
    PipeTransportState × List Emitted :=
  if t.closed then (t, [])
  else
    ({ t with closed := true, consumers := [] },
     [selfEmit selfEvent, obsEmit "close"])

/-- PipeTransport.Close (pipe transport source): returns at once when
already closed; otherwise marks a non-empty SCTP state closed and
delegates to the base close. -/
def PipeTransportState.close (t : PipeTransportState) :
    PipeTransportState × List Emitted :=
  if t.closed then (t, [])
  else
    let t1 := if t.sctpState.length > 0 then { t with sctpState := "closed" } else t
    transportBaseClose t1 "@close"

/-- PipeTransport.routerClosed (pipe transport source): same guard and
SCTP-state update, then the base parent-initiated close path. -/
def PipeTransportState.routerClosed (t : PipeTransportState) :
    PipeTransportState × List Emitted :=
  if t.closed then (t, [])
  else
    let t1 := if t.sctpState.length > 0 then { t with sctpState := "closed" } else t
    transportBaseClose t1 "routerclose"

/-- Result of PipeTransport.Consume: resulting transport state, requests
sent to the worker, the id of the Consumer created (if any), and the error
returned. -/
structure ConsumeOut where
  state : PipeTransportState
  requests : List String
  consumerId : Option String
  err : Option MError
deriving DecidableEq, Repr

/-- PipeTransport.Consume (pipe transport source): resolves the producer
through the injected callback and fails — before sending anything — when
it is unknown; otherwise sends `transport.consume`, and on success creates
the Consumer under a fresh id, stores it in the base transport's consumers
map and emits the observer `newconsumer`.  `freshConsumerId` stands for
the generated UUID; `resp` is the worker's response carrying the initial
paused/producerPaused pair. -/
def PipeTransportState.consume (t : PipeTransportState)
    (getProducerById : String → Option ProducerRef)
    (producerId : String) (freshConsumerId : String) (ch : Channel)
    (resp : Except MError (Bool × Bool)) : ConsumeOut :=
  match getProducerById producerId with
  | none =>
    { state := t, requests := [], consumerId := none,
      err := some (MError.genericError "Producer with given id not found") }
  | some _ =>
    match ch.requestData resp with
    | .error e =>
      { state := t, requests := ["transport.consume"], consumerId := none, err := some e }
    | .ok _ =>
      { state := { t with consumers := t.consumers ++ [freshConsumerId] }
        requests := ["transport.consume"]
        consumerId := some freshConsumerId
        err := none }

/-- Operations of the PipeTransport lifecycle. -/
inductive PipeOp
  | close
  | routerClosed
  | consume (getProducerById : String → Option ProducerRef)
      (producerId freshConsumerId : String) (ch : Channel)
      (resp : Except MError (Bool × Bool))

/-- One PipeTransport operation as a step on the state, with its
emissions (Consume emits the observer `newconsumer` on success). -/
def PipeTransportState.step (t : PipeTransportState) : PipeOp → PipeTransportState × List Emitted
  | .close => t.close
  | .routerClosed => t.routerClosed
  | .consume f pid fid ch resp =>
    let r := t.consume f pid fid ch resp
    (r.state, if r.err.isNone then [obsEmit "newconsumer"] else [])

/-- Run a sequence of PipeTransport operations. -/
def PipeTransportState.run (t : PipeTransportState) : List PipeOp → PipeTransportState × List Emitted
  | [] => (t, [])
  | op :: ops =>
    let r := t.step op
    let r2 := r.1.run ops
    (r2.1, r.2 ++ r2.2)

/-- Operations of the Consumer lifecycle (methods and worker
notifications reaching the consumer). -/
inductive ConsumerOp
  | close
  | transportClosed
  | producerCloseNotif
  | pause (ch : Channel) (resp : Option MError)
  | resume (ch : Channel) (resp : Option MError)
  | producerPauseNotif
  | producerResumeNotif
  | setPreferredLayers (ch : Channel) (resp : Except MError ConsumerLayers)
  | setPriority (ch : Channel) (resp : Except MError Nat) (priority : Nat)
  | payloadRtp (payload : List Nat)

/-- One Consumer operation as a step on the state, with its emissions. -/
def ConsumerState.step (s : ConsumerState) : ConsumerOp → ConsumerState × List Emitted
  | .close => let r := s.close; (r.1, r.2.1)
  | .transportClosed => s.transportClosed
  | .producerCloseNotif => s.onProducerClose
  | .pause ch resp => let r := s.pause ch resp; (r.state, r.emitted)
  | .resume ch resp => let r := s.resume ch resp; (r.state, r.emitted)
  | .producerPauseNotif => s.onProducerPause
  | .producerResumeNotif => s.onProducerResume
  | .setPreferredLayers ch resp => ((s.setPreferredLayers ch resp).1, [])
  | .setPriority ch resp p => ((s.setPriority ch resp p).1, [])
  | .payloadRtp payload => (s, s.onPayloadRtp payload)

/-- Run a sequence of Consumer operations. -/
def ConsumerState.run (s : ConsumerState) : List ConsumerOp → ConsumerState × List Emitted
  | [] => (s, [])
  | op :: ops =>
    let r := s.step op
    let r2 := r.1.run ops
    (r2.1, r.2 ++ r2.2)

/-- Remaining budget of observer `close` emissions an object with the
given closed flag may still produce. -/
def closePotential (closed : Bool) : Nat :=
  if closed then 0 else 1

/-- RtcpFeedback (mediasoup/rtp_capabilities.go lines 49-52). -/
structure RtcpFeedback where
  type : String
  parameter : String := ""
deriving DecidableEq, Repr

/-- RtpParameter (mediasoup/rtp_capabilities.go lines 54-58), the pointee
of a codec's Parameters field: the embedded H264 fields plus apt and
useinbandfec. -/
structure RtpParameter where
  profileLevelId : String := ""
  packetizationMode : Nat := 0
  levelAsymmetryAllowed : Nat := 0
  apt : Nat := 0
  useinbandfec : Nat := 0
deriving DecidableEq, Repr

/-- RtpCodecCapability (mediasoup/rtp_capabilities.go lines 39-47).
`parameters` models the `*RtpParameter` pointer field (none for a nil
pointer); because the element itself lives in a possibly shared backing
array, mutation through it is covered by the array model below. -/
structure RtpCodecCapability where
  kind : String := ""
  mimeType : String := ""
  clockRate : Nat := 0
  channels : Nat := 0
  preferredPayloadType : Nat := 0
  parameters : Option RtpParameter := none
  rtcpFeedback : List RtcpFeedback := []
deriving DecidableEq, Repr

instance : Inhabited RtpCodecCapability := ⟨{}⟩

/-- RtpHeaderExtension (mediasoup/rtp_capabilities.go lines 67-72). -/
structure RtpHeaderExtension where
  kind : String
  uri : String
  preferredId : Nat
  preferredEncrypt : Bool
deriving DecidableEq, Repr

/-- The nack / nack-pli / ccm-fir / goog-remb feedback list shared by all
video codecs of the built-in table. -/
def videoRtcpFeedback : List RtcpFeedback :=
  [{ type := "nack" },
   { type := "nack", parameter := "pli" },
   { type := "ccm", parameter := "fir" },
   { type := "goog-remb" }]

/-- The codec list of the built-in supported capabilities table
(mediasoup/rtp_capabilities.go lines 75-264). -/
def supportedCodecs : List RtpCodecCapability :=
  [{ kind := "audio", mimeType := "audio/opus", clockRate := 48000, channels := 2 },
   { kind := "audio", mimeType := "audio/PCMU", preferredPayloadType := 0, clockRate := 8000 },
   { kind := "audio", mimeType := "audio/PCMA", preferredPayloadType := 8, clockRate := 8000 },
   { kind := "audio", mimeType := "audio/ISAC", clockRate := 32000 },
   { kind := "audio", mimeType := "audio/ISAC", clockRate := 16000 },
   { kind := "audio", mimeType := "audio/G722", preferredPayloadType := 9, clockRate := 8000 },
   { kind := "audio", mimeType := "audio/iLBC", clockRate := 8000 },
   { kind := "audio", mimeType := "audio/SILK", clockRate := 24000 },
   { kind := "audio", mimeType := "audio/SILK", clockRate := 16000 },
   { kind := "audio", mimeType := "audio/SILK", clockRate := 12000 },
   { kind := "audio", mimeType := "audio/SILK", clockRate := 8000 },
   { kind := "audio", mimeType := "audio/CN", preferredPayloadType := 13, clockRate := 32000 },
   { kind := "audio", mimeType := "audio/CN", preferredPayloadType := 13, clockRate := 16000 },
   { kind := "audio", mimeType := "audio/CN", preferredPayloadType := 13, clockRate := 8000 },
   { kind := "audio", mimeType := "audio/telephone-event", clockRate := 48000 },
   { kind := "audio", mimeType := "audio/telephone-event", clockRate := 32000 },
   { kind := "audio", mimeType := "audio/telephone-event", clockRate := 16000 },
   { kind := "audio", mimeType := "audio/telephone-event", clockRate := 8000 },
   { kind := "video", mimeType := "video/VP8", clockRate := 90000,
     rtcpFeedback := videoRtcpFeedback },
   { kind := "video", mimeType := "video/VP9", clockRate := 90000,
     rtcpFeedback := videoRtcpFeedback },
   { kind := "video", mimeType := "video/H264", clockRate := 90000,
     parameters := some { packetizationMode := 1, levelAsymmetryAllowed := 1 },
     rtcpFeedback := videoRtcpFeedback },
   { kind := "video", mimeType := "video/H264", clockRate := 90000,
     parameters := some { packetizationMode := 0, levelAsymmetryAllowed := 1 },
     rtcpFeedback := videoRtcpFeedback },
   { kind := "video", mimeType := "video/H265", clockRate := 90000,
     parameters := some { packetizationMode := 1, levelAsymmetryAllowed := 1 },
     rtcpFeedback := videoRtcpFeedback },
   { kind := "video", mimeType := "video/H265", clockRate := 90000,
     parameters := some { packetizationMode := 0, levelAsymmetryAllowed := 1 },
     rtcpFeedback := videoRtcpFeedback }]

/-- The header-extension list of the built-in supported capabilities table
(mediasoup/rtp_capabilities.go lines 265-321). -/
def supportedHeaderExtensions : List RtpHeaderExtension :=
  [{ kind := "audio", uri := "urn:ietf:params:rtp-hdrext:ssrc-audio-level", preferredId := 1, preferredEncrypt := false },
   { kind := "video", uri := "urn:ietf:params:rtp-hdrext:toffset", preferredId := 2, preferredEncrypt := false },
   { kind := "audio", uri := "http://www.webrtc.org/experiments/rtp-hdrext/abs-send-time", preferredId := 3, preferredEncrypt := false },
   { kind := "video", uri := "http://www.webrtc.org/experiments/rtp-hdrext/abs-send-time", preferredId := 3, preferredEncrypt := false },
   { kind := "video", uri := "urn:3gpp:video-orientation", preferredId := 4, preferredEncrypt := false },
   { kind := "audio", uri := "urn:ietf:params:rtp-hdrext:sdes:mid", preferredId := 5, preferredEncrypt := false },
   { kind := "video", uri := "urn:ietf:params:rtp-hdrext:sdes:mid", preferredId := 5, preferredEncrypt := false },
   { kind := "video", uri := "urn:ietf:params:rtp-hdrext:sdes:rtp-stream-id", preferredId := 6, preferredEncrypt := false },
   { kind := "video", uri := "urn:ietf:params:rtp-hdrext:sdes:repaired-rtp-stream-id", preferredId := 7, preferredEncrypt := false }]

/-- A heap of slice backing arrays: Go slice values are (array id, …)
headers, so two RtpCapabilities values may point at the same arrays.  Index
into each list is the array id. -/
structure MediaHeap where
  codecArrays : List (List RtpCodecCapability)
  extArrays : List (List RtpHeaderExtension)
deriving DecidableEq, Repr

/-- An RtpCapabilities value as Go represents it: a struct of slice
headers, each naming a backing array in the heap. -/
structure RtpCapabilitiesRef where
  codecs : Nat
  headerExtensions : Nat
deriving DecidableEq, Repr

/-- The package-level variable supportedRtpCapabilities
(mediasoup/rtp_capabilities.go line 74): its slice headers name the two
arrays allocated by the composite literal. -/
def supportedRtpCapabilitiesRef : RtpCapabilitiesRef :=
  { codecs := 0, headerExtensions := 0 }

/-- The initial heap: exactly the backing arrays of the package-level
table. -/
def mediaHeap0 : MediaHeap :=
  { codecArrays := [supportedCodecs], extArrays := [supportedHeaderExtensions] }

/-- The value currently reachable from an RtpCapabilities slice header
pair: the content of both named arrays. -/
def readCaps (h : MediaHeap) (r : RtpCapabilitiesRef) :
    List RtpCodecCapability × List RtpHeaderExtension :=
  (h.codecArrays.getD r.codecs [], h.extArrays.getD r.headerExtensions [])

/-- The current value of the built-in table supportedRtpCapabilities. -/
def supportedTableValue (h : MediaHeap) :
    List RtpCodecCapability × List RtpHeaderExtension :=
  readCaps h supportedRtpCapabilitiesRef

/-- The field-by-field copy performed by jinzhu/copier's default
`copier.Copy` (mediasoup/rtp_capabilities.go line 324): a slice-typed
struct field whose source type is convertible to the destination type is
assigned directly, so the fresh top-level struct receives the same slice
headers — the backing arrays are shared, not cloned (only
`CopyWithOption` with the DeepCopy option would clone them). -/
def copierCopyCaps (r : RtpCapabilitiesRef) : RtpCapabilitiesRef :=
  { codecs := r.codecs, headerExtensions := r.headerExtensions }

/-- GetSupportedRtpCapabilities (mediasoup/rtp_capabilities.go lines
323-327): copier.Copy of the package table into a fresh value; the heap is
untouched and the returned header pair aliases the table's arrays. -/
def getSupportedRtpCapabilities (h : MediaHeap) : RtpCapabilitiesRef × MediaHeap :=
  (copierCopyCaps supportedRtpCapabilitiesRef, h)

/-- A caller-side mutation of one codec reached through an RtpCapabilities
value: overwrite the clock rate of element `i` of the codecs slice.  Writes
go to the shared backing array. -/
def mutateCodecClockRate (h : MediaHeap) (r : RtpCapabilitiesRef) (i v : Nat) : MediaHeap :=
  let arr := h.codecArrays.getD r.codecs []
  let elt := { arr.getD i default with clockRate := v }
  { h with codecArrays := h.codecArrays.set r.codecs (arr.set i elt) }

/-- The effective paused value of a Consumer (spec section 8 law):
locally paused or producer paused. -/
def effectivePaused (s : ConsumerState) : Bool :=
  s.paused || s.producerPaused

/-- The observer pause/resume contract relating a state transition to an
emission trace: `pause` is emitted exactly once when the effective value
goes false to true, `resume` exactly once when it goes true to false, and
neither otherwise. -/
def pauseResumeObsSpec (s s' : ConsumerState) (em : List Emitted) : Prop :=
  countEvent em (obsEmit "pause") =
      (if effectivePaused s = false ∧ effectivePaused s' = true then 1 else 0) ∧
  countEvent em (obsEmit "resume") =
      (if effectivePaused s = true ∧ effectivePaused s' = false then 1 else 0)

/-- C3: For every Consumer, with effective pause defined as paused OR
producerPaused, each of Pause(), Resume(), and the
producerpause/producerresume notification handlers emits the observer
event `pause` exactly when the effective value transitions from false to
true, and `resume` exactly when it transitions from true to false; no
observer pause/resume event is emitted when the effective value is
unchanged. -/
theorem consumer_effective_pause_transitions (s : ConsumerState) (ch : Channel)
    (resp : Option MError) :
    pauseResumeObsSpec s (s.pause ch resp).state (s.pause ch resp).emitted ∧
    pauseResumeObsSpec s (s.resume ch resp).state (s.resume ch resp).emitted ∧
    pauseResumeObsSpec s s.onProducerPause.1 s.onProducerPause.2 ∧
    pauseResumeObsSpec s s.onProducerResume.1 s.onProducerResume.2 := by
  obtain ⟨cl, p, pp, pr, sc, pl, l1, l2⟩ := s
  obtain ⟨chc⟩ := ch
  cases p <;> cases pp <;> cases chc <;> cases resp <;>
    exact ⟨⟨rfl, rfl⟩, ⟨rfl, rfl⟩, ⟨rfl, rfl⟩, ⟨rfl, rfl⟩⟩

/-- C5: a Consumer that is not yet closed, on receiving a `producerclose`
notification, transitions to closed exactly once, removes its channel
listener registration, emits the internal `@producerclose`, the external
`producerclose` and the observer `close`; a repeated notification or a
subsequent Close() emits none of these again (and sends nothing). -/
theorem consumer_producerclose_closes_once (s : ConsumerState)
    (h : s.closed = false) :
    s.onProducerClose =
      ({ s with closed := true, channelListening := false },
       [selfEmit "@producerclose", selfEmit "producerclose", obsEmit "close"]) ∧
    s.onProducerClose.1.closed = true ∧
    s.onProducerClose.1.channelListening = false ∧
    s.onProducerClose.1.onProducerClose = (s.onProducerClose.1, []) ∧
    s.onProducerClose.1.close = (s.onProducerClose.1, [], []) := by
  simp [ConsumerState.onProducerClose, ConsumerState.close, h]

/-- Witness for C5 at a concrete open consumer. -/
theorem consumer_producerclose_closes_once_witness :
    (({ closed := false, paused := false, producerPaused := false, priority := 0,
        score := defaultConsumerScore,
        preferredLayers := { spatialLayer := 0, temporalLayer := 0 },
        channelListening := true, payloadListening := true } : ConsumerState).onProducerClose.2
      = [selfEmit "@producerclose", selfEmit "producerclose", obsEmit "close"]) ∧
    (({ closed := false, paused := false, producerPaused := false, priority := 0,
        score := defaultConsumerScore,
        preferredLayers := { spatialLayer := 0, temporalLayer := 0 },
        channelListening := true, payloadListening := true } : ConsumerState).onProducerClose.1.onProducerClose.2
      = []) := by
  have h := consumer_producerclose_closes_once
    { closed := false, paused := false, producerPaused := false, priority := 0,
      score := defaultConsumerScore,
      preferredLayers := { spatialLayer := 0, temporalLayer := 0 },
      channelListening := true, payloadListening := true } rfl
  exact ⟨by rw [h.1], by rw [h.2.2.2.1]⟩

/-- C7: PipeTransport.Consume with a producer id the injected
getProducerById callback cannot resolve returns a non-nil error, sends no
`transport.consume` request, creates no Consumer, and leaves the
transport's consumers map (and all other state) unchanged. -/
theorem pipeConsume_unknown_producer_fails (t : PipeTransportState)
    (f : String → Option ProducerRef) (producerId freshId : String)
    (ch : Channel) (resp : Except MError (Bool × Bool))
    (h : f producerId = none) :
    t.consume f producerId freshId ch resp =
      { state := t, requests := [], consumerId := none,
        err := some (MError.genericError "Producer with given id not found") } ∧
    (t.consume f producerId freshId ch resp).err ≠ none ∧
    (t.consume f producerId freshId ch resp).state.consumers = t.consumers := by
  unfold PipeTransportState.consume
  rw [h]
  exact ⟨rfl, by simp, rfl⟩

/-- Witness for C7 at a concrete transport and an empty producer
directory. -/
theorem pipeConsume_unknown_producer_fails_witness :
    (({ closed := false, sctpState := "", consumers := ["c0"] } : PipeTransportState).consume
        (fun _ => none) "p1" "c1" { closed := false } (.ok (false, false))).requests = [] ∧
    (({ closed := false, sctpState := "", consumers := ["c0"] } : PipeTransportState).consume
        (fun _ => none) "p1" "c1" { closed := false } (.ok (false, false))).state.consumers = ["c0"] := by
  have h := pipeConsume_unknown_producer_fails
    { closed := false, sctpState := "", consumers := ["c0"] }
    (fun _ => none) "p1" "c1" { closed := false } (.ok (false, false)) rfl
  exact ⟨by rw [h.1], h.2.2⟩

/-- C8: newConsumer defaults the score to Score 10 / ProducerScore 10 /
empty ProducerScores exactly when the supplied score equals the zero value
of ConsumerScore (nil slice included); any other score is stored
unchanged. -/
theorem newConsumer_score_default (p : ConsumerParams) :
    ((newConsumer p).score =
      if p.score = goZeroConsumerScore then defaultConsumerScore else p.score) ∧
    (deepEqualZeroScore p.score = true ↔ p.score = goZeroConsumerScore) := by
  have h : deepEqualZeroScore p.score = true ↔ p.score = goZeroConsumerScore := by
    obtain ⟨a, b, c⟩ := p.score
    simp [deepEqualZeroScore, goZeroConsumerScore, ConsumerScore.mk.injEq, and_assoc]
  refine ⟨?_, h⟩
  cases hz : deepEqualZeroScore p.score with
  | true =>
    have := h.mp hz
    simp [newConsumer, hz, this, deepEqualZeroScore, goZeroConsumerScore]
  | false =>
    have : ¬ p.score = goZeroConsumerScore := fun hc => by
      rw [h.mpr hc] at hz; cases hz
    simp [newConsumer, hz, this]

/-- C9: Consumer.UnsetPriority is exactly Consumer.SetPriority(1): the same
state update, the same `consumer.setPriority` request carrying priority 1,
and the same returned error, for every state, channel and worker
response. -/
theorem unsetPriority_is_setPriority_one (s : ConsumerState) (ch : Channel)
    (resp : Except MError Nat) :
    s.unsetPriority ch resp = s.setPriority ch resp 1 ∧
    (s.unsetPriority ch resp).2.1 = { method := "consumer.setPriority", priority := 1 } := by
  refine ⟨rfl, ?_⟩
  unfold ConsumerState.unsetPriority ConsumerState.setPriority
  split <;> rfl

/-- C10: a closed Consumer never reacts to an `rtp` payload-channel
notification: the handler returns without emitting anything. -/
theorem closed_consumer_drops_rtp (s : ConsumerState) (payload : List Nat)
    (h : s.closed = true) : s.onPayloadRtp payload = [] := by
  simp [ConsumerState.onPayloadRtp, h]

/-- Witness for C10 at a concrete closed consumer and payload. -/
theorem closed_consumer_drops_rtp_witness :
    ({ closed := true, paused := false, producerPaused := false, priority := 0,
       score := defaultConsumerScore,
       preferredLayers := { spatialLayer := 0, temporalLayer := 0 },
       channelListening := false, payloadListening := true } : ConsumerState).onPayloadRtp [1, 2, 3] = [] :=
  closed_consumer_drops_rtp _ [1, 2, 3] rfl

/-- A Worker operation keeps the correspondence between the worker's
closed flag and its channel's closed flag: only Close sets either, and it
sets both. -/
lemma workerStep_closed_iff_channel (w : WorkerState) (op : WorkerOp)
    (h : w.closed = w.channel.closed) :
    (w.step op).1.closed = (w.step op).1.channel.closed := by
  cases op <;>
    simp only [WorkerState.step, WorkerState.close, WorkerState.createRouter,
      Channel.request] <;>
    (try split) <;> simp_all

/-- In every Worker state reachable from construction, the closed flag
and the channel's closed flag agree: a Worker observed closed has a closed
channel. -/
lemma workerRun_closed_iff_channel (ops : List WorkerOp) :
    (initialWorker.run ops).1.closed = (initialWorker.run ops).1.channel.closed := by
  suffices h : ∀ (w : WorkerState), w.closed = w.channel.closed →
      ∀ (l : List WorkerOp), (w.run l).1.closed = (w.run l).1.channel.closed by
    exact h initialWorker rfl ops
  intro w hw l
  induction l generalizing w with
  | nil => exact hw
  | cons op l ih => exact ih _ (workerStep_closed_iff_channel w op hw)

/-- The error of an unmarshalled channel response: the channel failure or
the worker error, if any. -/
def channelErr {α : Type} (ch : Channel) (resp : Except MError α) : Option MError :=
  match ch.requestData resp with
  | .error e => some e
  | .ok _ => none

/-- C1 (amended): a Worker whose Closed() is true (reachable only through
Close(), which closes the channel) fails Dump, GetResourceUsage,
UpdateSettings and CreateRouter with InvalidStateError; a closed Consumer,
however, is not guarded: each Consumer operation returns exactly the
channel-request outcome whatever the closed flag, so on a closed Consumer
whose channel is still open it does not fail with InvalidStateError. -/
theorem closed_worker_ops_fail_consumer_ops_unguarded :
    (∀ (ops : List WorkerOp) (resp : Option MError) (routerId : String),
      (initialWorker.run ops).1.closed = true →
        (initialWorker.run ops).1.dump resp
            = some (MError.invalidStateError "Channel closed") ∧
        (initialWorker.run ops).1.getResourceUsage resp
            = some (MError.invalidStateError "Channel closed") ∧
        (initialWorker.run ops).1.updateSettings resp
            = some (MError.invalidStateError "Channel closed") ∧
        ((initialWorker.run ops).1.createRouter routerId resp).2.2
            = some (MError.invalidStateError "Channel closed")) ∧
    (∀ (s : ConsumerState) (ch : Channel) (resp : Option MError)
        (respStats : Except MError (List Nat))
        (respLayers : Except MError ConsumerLayers)
        (respPrio : Except MError Nat) (prio : Nat),
      (s.pause ch resp).err = ch.request resp ∧
      (s.resume ch resp).err = ch.request resp ∧
      s.dump ch resp = ch.request resp ∧
      s.getStats ch respStats = channelErr ch respStats ∧
      (s.setPreferredLayers ch respLayers).2 = channelErr ch respLayers ∧
      (s.setPriority ch respPrio prio).2.2 = channelErr ch respPrio ∧
      s.requestKeyFrame ch resp = ch.request resp ∧
      s.enableTraceEvent ch resp = ch.request resp) := by
  constructor
  · intro ops resp routerId hclosed
    have hch : (initialWorker.run ops).1.channel.closed = true :=
      (workerRun_closed_iff_channel ops) ▸ hclosed
    refine ⟨?_, ?_, ?_, ?_⟩ <;>
      simp [WorkerState.dump, WorkerState.getResourceUsage,
        WorkerState.updateSettings, WorkerState.createRouter,
        Channel.request, hch]
  · intro s ch resp respStats respLayers respPrio prio
    refine ⟨?_, ?_, rfl, ?_, ?_, ?_, rfl, rfl⟩
    · cases h : ch.request resp <;> simp [ConsumerState.pause, h]
    · cases h : ch.request resp <;> simp [ConsumerState.resume, h]
    · cases h : ch.requestData respStats <;>
        simp [ConsumerState.getStats, channelErr, h]
    · cases h : ch.requestData respLayers <;>
        simp [ConsumerState.setPreferredLayers, channelErr, h]
    · cases h : ch.requestData respPrio <;>
        simp [ConsumerState.setPriority, channelErr, h]

/-- Witness for C1 (amended), applying the theorem to the worker closed by
a single Close() call and to a concrete closed consumer on an open
channel. -/
theorem closed_worker_ops_fail_consumer_ops_unguarded_witness :
    ((initialWorker.run [WorkerOp.close]).1.closed = true ∧
      (initialWorker.run [WorkerOp.close]).1.dump none
        = some (MError.invalidStateError "Channel closed")) ∧
    (({ closed := true, paused := false, producerPaused := false, priority := 0,
        score := defaultConsumerScore,
        preferredLayers := { spatialLayer := 0, temporalLayer := 0 },
        channelListening := false, payloadListening := false } : ConsumerState).pause
          { closed := false } none).err = { closed := false : Channel }.request none := by
  refine ⟨⟨by decide, ?_⟩, ?_⟩
  · exact (closed_worker_ops_fail_consumer_ops_unguarded.1 [WorkerOp.close] none "r" (by decide)).1
  · exact (closed_worker_ops_fail_consumer_ops_unguarded.2
      { closed := true, paused := false, producerPaused := false, priority := 0,
        score := defaultConsumerScore,
        preferredLayers := { spatialLayer := 0, temporalLayer := 0 },
        channelListening := false, payloadListening := false }
      { closed := false } none (.ok []) (.ok { spatialLayer := 0, temporalLayer := 0 })
      (.ok 1) 1).1

/-- A concrete Consumer that has been closed (its listener registrations
removed) while its Worker's channel stays open. -/
def closedConsumerSample : ConsumerState :=
  { closed := true, paused := false, producerPaused := false, priority := 0,
    score := defaultConsumerScore,
    preferredLayers := { spatialLayer := 0, temporalLayer := 0 },
    channelListening := false, payloadListening := false }

/-- C1 counterexample: on a closed Consumer whose channel is open and
whose worker accepts the request, Pause() returns no error at all — not an
InvalidStateError as the claim requires — and even flips the paused flag. -/
theorem closed_consumer_pause_succeeds_counterexample :
    closedConsumerSample.closed = true ∧
    (closedConsumerSample.pause { closed := false } none).err = none ∧
    (closedConsumerSample.pause { closed := false } none).state.paused = true := by
  decide

/-- C2: what actually happens when the worker subprocess exits, versus
what Worker.wait would do.  NewWorker spawns only the stderr/stdout
readers and a bare `child.Wait()` reaper, so the combined reaction to the
subprocess exiting is no state change and no emission at all; Worker.wait
— the handler the claim describes, which is defined in worker.go but never
invoked — would emit `@failure` (TypeError "wrong settings" exactly for
exit code 42, a generic error otherwise) before the `running` notification
and `died` after it, and would close the Worker, cascading workerClosed to
all of its routers. -/
theorem worker_exit_unwired_though_wait_matches :
    (∀ w : WorkerState, processExitEffect w = (w, [])) ∧
    (∀ (w : WorkerState) (code : Nat),
      (w.wait code).2.1 =
          (if w.closed then [] else [obsEmit "close"]) ++
          [if w.spawnDone then
              { target := EmitTarget.self, event := "died", payload := some diedErr }
            else
              { target := EmitTarget.self, event := "@failure",
                payload := some (spawnFailureErr code) }] ∧
      (w.wait code).1.closed = true ∧
      (w.wait code).1.spawnDone = true ∧
      (w.wait code).2.2 = (if w.closed then [] else w.routers)) ∧
    (∀ code : Nat, spawnFailureErr code =
        if code = 42 then MError.typeError "wrong settings"
        else MError.workerError "worker process failed unexpectedly") := by
  refine ⟨fun w => rfl, ?_, fun code => rfl⟩
  intro w code
  obtain ⟨cl, ch, pc, child, sd, rs⟩ := w
  cases cl <;> cases sd <;>
    simp [WorkerState.wait, WorkerState.close, obsEmit]

/-- C6 counterexample: take the value returned by
GetSupportedRtpCapabilities and overwrite the clock rate of its first
codec (opus, clock rate 48000) with 0 through the returned Codecs slice.
The built-in table supportedRtpCapabilities changes with it — the returned
value shares the table's backing arrays, so it is not a deep copy. -/
theorem getSupportedRtpCapabilities_not_deep_copy :
    supportedTableValue
        (mutateCodecClockRate (getSupportedRtpCapabilities mediaHeap0).2
          (getSupportedRtpCapabilities mediaHeap0).1 0 0)
      ≠ supportedTableValue mediaHeap0 := fun hEq =>
  absurd
    (congrArg (fun x => (x.1.getD 0 default).clockRate) hEq : (0 : Nat) = 48000)
    (by decide)

/-- C6 (amended): GetSupportedRtpCapabilities returns a fresh top-level
struct whose Codecs and HeaderExtensions slice headers alias the built-in
table's backing arrays: the call itself leaves the table untouched and
every call reads equal values, but a mutation performed through the
returned value's slices is a mutation of supportedRtpCapabilities itself
(and is therefore seen by every other call). -/
theorem getSupportedRtpCapabilities_shallow_copy :
    (∀ h : MediaHeap, (getSupportedRtpCapabilities h).2 = h) ∧
    ((getSupportedRtpCapabilities mediaHeap0).1.codecs
        = supportedRtpCapabilitiesRef.codecs ∧
      (getSupportedRtpCapabilities mediaHeap0).1.headerExtensions
        = supportedRtpCapabilitiesRef.headerExtensions) ∧
    (∀ h : MediaHeap,
      readCaps h (getSupportedRtpCapabilities h).1 = supportedTableValue h) ∧
    (∀ (h : MediaHeap) (i v : Nat),
      supportedTableValue
          (mutateCodecClockRate h (getSupportedRtpCapabilities h).1 i v)
        = supportedTableValue (mutateCodecClockRate h supportedRtpCapabilitiesRef i v)) :=
  ⟨fun _ => rfl, ⟨rfl, rfl⟩, fun _ => rfl, fun _ _ _ => rfl⟩

/-- countEvent distributes over trace concatenation. -/
lemma countEvent_append (a b : List Emitted) (e : Emitted) :
    countEvent (a ++ b) e = countEvent a e + countEvent b e := by
  simp [countEvent, List.filter_append]

/-- No Consumer operation resets the closed flag. -/
lemma consumerStep_closed_mono (s : ConsumerState) (op : ConsumerOp)
    (h : s.closed = true) : (s.step op).1.closed = true := by
  obtain ⟨cl, p, pp, pr, sc, pl, l1, l2⟩ := s
  subst h
  cases op with
  | close => rfl
  | transportClosed => rfl
  | producerCloseNotif => rfl
  | pause ch resp =>
    obtain ⟨chc⟩ := ch
    cases p <;> cases pp <;> cases chc <;> cases resp <;> rfl
  | resume ch resp =>
    obtain ⟨chc⟩ := ch
    cases p <;> cases pp <;> cases chc <;> cases resp <;> rfl
  | producerPauseNotif => cases p <;> cases pp <;> rfl
  | producerResumeNotif => cases p <;> cases pp <;> rfl
  | setPreferredLayers ch resp =>
    obtain ⟨chc⟩ := ch
    cases chc <;> cases resp <;> rfl
  | setPriority ch resp prio =>
    obtain ⟨chc⟩ := ch
    cases chc <;> cases resp <;> rfl
  | payloadRtp payload => rfl

/-- One Consumer operation emits the observer `close` at most as often as
the closed flag flips, measured by the remaining close budget. -/
lemma consumerStep_close_budget (s : ConsumerState) (op : ConsumerOp) :
    countEvent (s.step op).2 (obsEmit "close") +
      closePotential (s.step op).1.closed ≤ closePotential s.closed := by
  obtain ⟨cl, p, pp, pr, sc, pl, l1, l2⟩ := s
  cases op with
  | close =>
    cases cl <;> exact Nat.le_refl _
  | transportClosed =>
    cases cl <;> exact Nat.le_refl _
  | producerCloseNotif =>
    cases cl <;> exact Nat.le_refl _
  | pause ch resp =>
    obtain ⟨chc⟩ := ch
    cases cl <;> cases p <;> cases pp <;> cases chc <;> cases resp <;>
      exact Nat.le_refl _
  | resume ch resp =>
    obtain ⟨chc⟩ := ch
    cases cl <;> cases p <;> cases pp <;> cases chc <;> cases resp <;>
      exact Nat.le_refl _
  | producerPauseNotif =>
    cases cl <;> cases p <;> cases pp <;> exact Nat.le_refl _
  | producerResumeNotif =>
    cases cl <;> cases p <;> cases pp <;> exact Nat.le_refl _
  | setPreferredLayers ch resp =>
    obtain ⟨chc⟩ := ch
    cases cl <;> cases chc <;> cases resp <;> exact Nat.le_refl _
  | setPriority ch resp prio =>
    obtain ⟨chc⟩ := ch
    cases cl <;> cases chc <;> cases resp <;> exact Nat.le_refl _
  | payloadRtp payload =>
    cases cl <;> exact Nat.le_refl _

/-- Closed-flag monotonicity along any Consumer operation sequence. -/
lemma consumerRun_closed_mono (s : ConsumerState) (ops : List ConsumerOp)
    (h : s.closed = true) : (s.run ops).1.closed = true := by
  induction ops generalizing s with
  | nil => exact h
  | cons op ops ih => exact ih _ (consumerStep_closed_mono s op h)

/-- Close-budget accounting along any Consumer operation sequence. -/
lemma consumerRun_close_budget (s : ConsumerState) (ops : List ConsumerOp) :
    countEvent (s.run ops).2 (obsEmit "close") +
      closePotential (s.run ops).1.closed ≤ closePotential s.closed := by
  induction ops generalizing s with
  | nil => simp [ConsumerState.run, countEvent]
  | cons op ops ih =>
    have h1 := consumerStep_close_budget s op
    have h2 := ih (s.step op).1
    simp only [ConsumerState.run, countEvent_append]
    omega

/-- No Worker operation resets the closed flag. -/
lemma workerStep_closed_mono (w : WorkerState) (op : WorkerOp)
    (h : w.closed = true) : (w.step op).1.closed = true := by
  obtain ⟨cl, ⟨chc⟩, pc, child, sd, rs⟩ := w
  subst h
  cases op with
  | close => rfl
  | dump resp => rfl
  | getResourceUsage resp => rfl
  | updateSettings resp => rfl
  | createRouter id resp => cases chc <;> cases resp <;> rfl

/-- One Worker operation respects the close budget. -/
lemma workerStep_close_budget (w : WorkerState) (op : WorkerOp) :
    countEvent (w.step op).2 (obsEmit "close") +
      closePotential (w.step op).1.closed ≤ closePotential w.closed := by
  obtain ⟨cl, ⟨chc⟩, pc, child, sd, rs⟩ := w
  cases op with
  | close =>
    cases cl <;> exact Nat.le_refl _
  | dump resp =>
    cases cl <;> exact Nat.le_refl _
  | getResourceUsage resp =>
    cases cl <;> exact Nat.le_refl _
  | updateSettings resp =>
    cases cl <;> exact Nat.le_refl _
  | createRouter id resp =>
    cases cl <;> cases chc <;> cases resp <;> exact Nat.le_refl _

/-- Closed-flag monotonicity along any Worker operation sequence. -/
lemma workerRun_closed_mono (w : WorkerState) (ops : List WorkerOp)
    (h : w.closed = true) : (w.run ops).1.closed = true := by
  induction ops generalizing w with
  | nil => exact h
  | cons op ops ih => exact ih _ (workerStep_closed_mono w op h)

/-- Close-budget accounting along any Worker operation sequence. -/
lemma workerRun_close_budget (w : WorkerState) (ops : List WorkerOp) :
    countEvent (w.run ops).2 (obsEmit "close") +
      closePotential (w.run ops).1.closed ≤ closePotential w.closed := by
  induction ops generalizing w with
  | nil => simp [WorkerState.run, countEvent]
  | cons op ops ih =>
    have h1 := workerStep_close_budget w op
    have h2 := ih (w.step op).1
    simp only [WorkerState.run, countEvent_append]
    omega

/-- No PipeTransport operation resets the closed flag. -/
lemma pipeStep_closed_mono (t : PipeTransportState) (op : PipeOp)
    (h : t.closed = true) : (t.step op).1.closed = true := by
  obtain ⟨cl, ss, cs⟩ := t
  subst h
  cases op with
  | close => rfl
  | routerClosed => rfl
  | consume f pid fid ch resp =>
    obtain ⟨chc⟩ := ch
    cases hp : f pid with
    | none =>
      simp [PipeTransportState.step, PipeTransportState.consume, hp]
    | some prod =>
      cases chc <;> cases resp <;>
        simp [PipeTransportState.step, PipeTransportState.consume, hp,
          Channel.requestData]

/-- One PipeTransport operation respects the close budget. -/
lemma pipeStep_close_budget (t : PipeTransportState) (op : PipeOp) :
    countEvent (t.step op).2 (obsEmit "close") +
      closePotential (t.step op).1.closed ≤ closePotential t.closed := by
  obtain ⟨cl, ss, cs⟩ := t
  cases op with
  | close =>
    cases cl with
    | true => exact Nat.le_refl _
    | false =>
      by_cases hs : ss.length > 0 <;>
        simp [PipeTransportState.step, PipeTransportState.close,
          transportBaseClose, hs, countEvent, closePotential, obsEmit, selfEmit]
  | routerClosed =>
    cases cl with
    | true => exact Nat.le_refl _
    | false =>
      by_cases hs : ss.length > 0 <;>
        simp [PipeTransportState.step, PipeTransportState.routerClosed,
          transportBaseClose, hs, countEvent, closePotential, obsEmit, selfEmit]
  | consume f pid fid ch resp =>
    obtain ⟨chc⟩ := ch
    cases hp : f pid with
    | none =>
      cases cl <;>
        simp [PipeTransportState.step, PipeTransportState.consume, hp,
          countEvent, closePotential]
    | some prod =>
      cases cl <;> cases chc <;> cases resp <;>
        simp [PipeTransportState.step, PipeTransportState.consume, hp,
          Channel.requestData, countEvent, closePotential, obsEmit, selfEmit]

/-- Closed-flag monotonicity along any PipeTransport operation sequence. -/
lemma pipeRun_closed_mono (t : PipeTransportState) (ops : List PipeOp)
    (h : t.closed = true) : (t.run ops).1.closed = true := by
  induction ops generalizing t with
  | nil => exact h
  | cons op ops ih => exact ih _ (pipeStep_closed_mono t op h)

/-- Close-budget accounting along any PipeTransport operation sequence. -/
lemma pipeRun_close_budget (t : PipeTransportState) (ops : List PipeOp) :
    countEvent (t.run ops).2 (obsEmit "close") +
      closePotential (t.run ops).1.closed ≤ closePotential t.closed := by
  induction ops generalizing t with
  | nil => simp [PipeTransportState.run, countEvent]
  | cons op ops ih =>
    have h1 := pipeStep_close_budget t op
    have h2 := ih (t.step op).1
    simp only [PipeTransportState.run, countEvent_append]
    omega

/-- The close budget never exceeds one. -/
lemma closePotential_le_one (b : Bool) : closePotential b ≤ 1 := by
  cases b <;> decide

/-- C4: Close is idempotent and the closed flag monotonic for Consumer,
Worker and PipeTransport: on an already-closed object every close path
(Close, transportClosed, producerclose, workerClosed-cascade trigger,
routerClosed) is a no-op that emits nothing and sends nothing; no
operation ever resets the closed flag; and over any operation sequence
the observer `close` event is emitted at most once. -/
theorem close_idempotent_monotonic_once :
    (∀ s : ConsumerState, s.closed = true →
        s.close = (s, [], []) ∧ s.transportClosed = (s, []) ∧
        s.onProducerClose = (s, [])) ∧
    (∀ (s : ConsumerState) (op : ConsumerOp), s.closed = true →
        (s.step op).1.closed = true) ∧
    (∀ (s : ConsumerState) (ops : List ConsumerOp),
        countEvent (s.run ops).2 (obsEmit "close") ≤ 1) ∧
    (∀ w : WorkerState, w.closed = true → w.close = (w, [], [])) ∧
    (∀ (w : WorkerState) (op : WorkerOp), w.closed = true →
        (w.step op).1.closed = true) ∧
    (∀ (w : WorkerState) (ops : List WorkerOp),
        countEvent (w.run ops).2 (obsEmit "close") ≤ 1) ∧
    (∀ t : PipeTransportState, t.closed = true →
        t.close = (t, []) ∧ t.routerClosed = (t, [])) ∧
    (∀ (t : PipeTransportState) (op : PipeOp), t.closed = true →
        (t.step op).1.closed = true) ∧
    (∀ (t : PipeTransportState) (ops : List PipeOp),
        countEvent (t.run ops).2 (obsEmit "close") ≤ 1) := by
  refine ⟨?_, consumerStep_closed_mono, ?_, ?_, workerStep_closed_mono, ?_,
    ?_, pipeStep_closed_mono, ?_⟩
  · intro s h
    exact ⟨by simp [ConsumerState.close, h], by simp [ConsumerState.transportClosed, h],
      by simp [ConsumerState.onProducerClose, h]⟩
  · intro s ops
    have h1 := consumerRun_close_budget s ops
    have h2 := closePotential_le_one s.closed
    omega
  · intro w h
    simp [WorkerState.close, h]
  · intro w ops
    have h1 := workerRun_close_budget w ops
    have h2 := closePotential_le_one w.closed
    omega
  · intro t h
    exact ⟨by simp [PipeTransportState.close, h], by simp [PipeTransportState.routerClosed, h]⟩
  · intro t ops
    have h1 := pipeRun_close_budget t ops
    have h2 := closePotential_le_one t.closed
    omega

/-- A concrete Worker state that has been closed. -/
def closedWorkerSample : WorkerState :=
  { closed := true, channel := { closed := true }, payloadChannelClosed := true,
    child := false, spawnDone := true, routers := [] }

/-- A concrete PipeTransport state that has been closed. -/
def closedPipeSample : PipeTransportState :=
  { closed := true, sctpState := "closed", consumers := [] }

/-- Witness for C4, applying the theorem at concrete closed objects and a
concrete double-close operation sequence. -/
theorem close_idempotent_monotonic_once_witness :
    (closedConsumerSample.close = (closedConsumerSample, [], []) ∧
      closedConsumerSample.transportClosed = (closedConsumerSample, []) ∧
      closedConsumerSample.onProducerClose = (closedConsumerSample, [])) ∧
    (closedConsumerSample.step ConsumerOp.close).1.closed = true ∧
    countEvent (closedConsumerSample.run [ConsumerOp.close, ConsumerOp.close]).2
        (obsEmit "close") ≤ 1 ∧
    closedWorkerSample.close = (closedWorkerSample, [], []) ∧
    (closedWorkerSample.step WorkerOp.close).1.closed = true ∧
    countEvent (WorkerState.run initialWorker [WorkerOp.close, WorkerOp.close]).2
        (obsEmit "close") ≤ 1 ∧
    (closedPipeSample.close = (closedPipeSample, []) ∧
      closedPipeSample.routerClosed = (closedPipeSample, [])) ∧
    (closedPipeSample.step PipeOp.close).1.closed = true ∧
    countEvent (closedPipeSample.run [PipeOp.close]).2 (obsEmit "close") ≤ 1 :=
  ⟨close_idempotent_monotonic_once.1 closedConsumerSample rfl,
   close_idempotent_monotonic_once.2.1 closedConsumerSample ConsumerOp.close rfl,
   close_idempotent_monotonic_once.2.2.1 closedConsumerSample
     [ConsumerOp.close, ConsumerOp.close],
   close_idempotent_monotonic_once.2.2.2.1 closedWorkerSample rfl,
   close_idempotent_monotonic_once.2.2.2.2.1 closedWorkerSample WorkerOp.close rfl,
   close_idempotent_monotonic_once.2.2.2.2.2.1 initialWorker
     [WorkerOp.close, WorkerOp.close],
   close_idempotent_monotonic_once.2.2.2.2.2.2.1 closedPipeSample rfl,
   close_idempotent_monotonic_once.2.2.2.2.2.2.2.1 closedPipeSample PipeOp.close rfl,
   close_idempotent_monotonic_once.2.2.2.2.2.2.2.2 closedPipeSample [PipeOp.close]⟩
